import Mathlib

/-!
Shallow embedding of the Pulumi program `__main__.py` from the
kubernetes-workshop repository.  The program reads six configuration
values (five with defaults, one mandatory), declares a VPC, an EKS
cluster and a Kubernetes provider, and exports two stack outputs.

Provider resources are opaque: their outputs (vpc id, subnet id lists,
kubeconfig) are modelled as symbolic values tagged with the declaring
resource's name.  Evaluation produces the ordered list of declarations
made, paired with the configuration error, if any; `config.require`
raises before any resource declaration, so on failure the declaration
list is empty.
-/

/-- The six Pulumi configuration keys read by the program; a `none`
field models an absent key. -/
structure Config where
  minClusterSize : Option Int
  maxClusterSize : Option Int
  desiredClusterSize : Option Int
  eksNodeInstanceType : Option String
  vpcNetworkCidr : Option String
  ssoRoleArn : Option String
deriving Repr, DecidableEq

/-- Error raised by `config.require` on a missing mandatory key. -/
inductive ConfigError where
  | missingRequired (key : String)
deriving Repr, DecidableEq

/-- `min_cluster_size = config.get_int("minClusterSize", 3)` -/
def min_cluster_size (config : Config) : Int :=
  (config.minClusterSize).getD 3

/-- `max_cluster_size = config.get_int("maxClusterSize", 6)` -/
def max_cluster_size (config : Config) : Int :=
  (config.maxClusterSize).getD 6

/-- `desired_cluster_size = config.get_int("desiredClusterSize", 3)` -/
def desired_cluster_size (config : Config) : Int :=
  (config.desiredClusterSize).getD 3

/-- `eks_node_instance_type = config.get("eksNodeInstanceType", "t3.nano")` -/
def eks_node_instance_type (config : Config) : String :=
  (config.eksNodeInstanceType).getD "t3.nano"

/-- `vpc_network_cidr = config.get("vpcNetworkCidr", "10.40.0.0/16")` -/
def vpc_network_cidr (config : Config) : String :=
  (config.vpcNetworkCidr).getD "10.40.0.0/16"

/-- `sso_role_arn = config.require("ssoRoleArn")`: succeeds with the
configured value, or fails with a missing-key error. -/
def sso_role_arn (config : Config) : Except ConfigError String :=
  match config.ssoRoleArn with
  | some v => Except.ok v
  | none => Except.error (ConfigError.missingRequired "ssoRoleArn")

/-- Opaque outputs of declared resources, tagged by the resource name
that produced them. -/
inductive Val where
  | vpcId (vpc : String)
  | publicSubnetIds (vpc : String)
  | privateSubnetIds (vpc : String)
  | kubeconfig (cluster : String)
deriving Repr, DecidableEq

/-- Arguments of the `awsx.ec2.Vpc` constructor call. -/
structure VpcArgs where
  name : String
  enable_dns_hostnames : Bool
  cidr_block : String
deriving Repr, DecidableEq

/-- `eks.AuthenticationMode` enum. -/
inductive AuthenticationMode where
  | API
  | API_AND_CONFIG_MAP
  | CONFIG_MAP
deriving Repr, DecidableEq

/-- `eks.AccessEntryType` enum. -/
inductive AccessEntryType where
  | STANDARD
  | EC2_LINUX
  | EC2_WINDOWS
  | FARGATE_LINUX
deriving Repr, DecidableEq

/-- `aws.eks.AccessPolicyAssociationAccessScopeArgs`. -/
structure AccessScopeArgs where
  type : String
  namespaces : List String
deriving Repr, DecidableEq

/-- `eks.AccessPolicyAssociationArgs`. -/
structure AccessPolicyAssociationArgs where
  policy_arn : String
  access_scope : AccessScopeArgs
deriving Repr, DecidableEq

/-- `eks.AccessEntryArgs`. -/
structure AccessEntryArgs where
  principal_arn : String
  access_policies : List (String × AccessPolicyAssociationArgs)
  type : AccessEntryType
deriving Repr, DecidableEq

/-- Arguments of the `eks.Cluster` constructor call. -/
structure ClusterArgs where
  name : String
  vpc_id : Val
  authentication_mode : AuthenticationMode
  public_subnet_ids : Val
  private_subnet_ids : Val
  instance_type : String
  desired_capacity : Int
  min_size : Int
  max_size : Int
  node_associate_public_ip_address : Bool
  endpoint_private_access : Bool
  endpoint_public_access : Bool
  access_entries : List (String × AccessEntryArgs)
deriving Repr, DecidableEq

/-- Arguments of the `k8s.Provider` constructor call. -/
structure K8sProviderArgs where
  name : String
  kubeconfig : Val
deriving Repr, DecidableEq

/-- One declaration made by the program, in program order. -/
inductive Decl where
  | vpc (args : VpcArgs)
  | cluster (args : ClusterArgs)
  | k8sProvider (args : K8sProviderArgs)
  | stackExport (name : String) (value : Val)
deriving Repr, DecidableEq

/-- Evaluation of the whole program: the ordered list of declarations
made, paired with the configuration error if evaluation failed.
`config.require("ssoRoleArn")` runs before the first resource
declaration, so a missing key yields an empty declaration list. -/
def evalStack (config : Config) : List Decl × Option ConfigError :=
  match sso_role_arn config with
  | Except.error e => ([], some e)
  | Except.ok arn =>
    let eks_vpc : VpcArgs :=
      { name := "eks-vpc"
        enable_dns_hostnames := true
        cidr_block := vpc_network_cidr config }
    let eks_cluster : ClusterArgs :=
      { name := "eks-cluster"
        vpc_id := Val.vpcId eks_vpc.name
        authentication_mode := AuthenticationMode.API
        public_subnet_ids := Val.publicSubnetIds eks_vpc.name
        private_subnet_ids := Val.privateSubnetIds eks_vpc.name
        instance_type := eks_node_instance_type config
        desired_capacity := desired_cluster_size config
        min_size := min_cluster_size config
        max_size := max_cluster_size config
        node_associate_public_ip_address := false
        endpoint_private_access := false
        endpoint_public_access := true
        access_entries := [("portaladmin",
          { principal_arn := arn
            access_policies := [("fullAccess",
              { policy_arn := "arn:aws:eks::aws:cluster-access-policy/AmazonEKSClusterAdminPolicy"
                access_scope := { type := "cluster", namespaces := [] } })]
            type := AccessEntryType.STANDARD })] }
    let cluster : K8sProviderArgs :=
      { name := "cluster"
        kubeconfig := Val.kubeconfig eks_cluster.name }
    ([Decl.vpc eks_vpc,
      Decl.cluster eks_cluster,
      Decl.k8sProvider cluster,
      Decl.stackExport "kubeconfig" (Val.kubeconfig eks_cluster.name),
      Decl.stackExport "vpcId" (Val.vpcId eks_vpc.name)], none)

/-- The VPC declared by an evaluation, if any. -/
def declaredVpc (config : Config) : Option VpcArgs :=
  (evalStack config).1.findSome? fun d =>
    match d with
    | Decl.vpc a => some a
    | _ => none

/-- The cluster declared by an evaluation, if any. -/
def declaredCluster (config : Config) : Option ClusterArgs :=
  (evalStack config).1.findSome? fun d =>
    match d with
    | Decl.cluster a => some a
    | _ => none

/-- The Kubernetes provider declared by an evaluation, if any. -/
def declaredProvider (config : Config) : Option K8sProviderArgs :=
  (evalStack config).1.findSome? fun d =>
    match d with
    | Decl.k8sProvider a => some a
    | _ => none

/-- The stack exports of an evaluation, in declaration order. -/
def stackExports (config : Config) : List (String × Val) :=
  (evalStack config).1.filterMap fun d =>
    match d with
    | Decl.stackExport n v => some (n, v)
    | _ => none

/-- Claim C1: evaluation fails exactly when `ssoRoleArn` is absent; the
failure is the missing-key error and occurs before any declaration is
made (the declaration list is empty), and with `ssoRoleArn` present
every other key may be absent without failure. -/
theorem eval_fails_iff_missing_sso (config : Config) :
    ((evalStack config).2.isSome ↔ config.ssoRoleArn = none)
    ∧ (config.ssoRoleArn = none →
        evalStack config = ([], some (ConfigError.missingRequired "ssoRoleArn"))) := by
  cases h : config.ssoRoleArn <;> simp [evalStack, sso_role_arn, h]

/-- Witness for C1 at the empty configuration and at one whose only key
is `ssoRoleArn`. -/
theorem eval_fails_iff_missing_sso_witness :
    (((evalStack ⟨none, none, none, none, none, none⟩).2.isSome
        ↔ (⟨none, none, none, none, none, none⟩ : Config).ssoRoleArn = none)
      ∧ ((⟨none, none, none, none, none, none⟩ : Config).ssoRoleArn = none →
          evalStack ⟨none, none, none, none, none, none⟩
            = ([], some (ConfigError.missingRequired "ssoRoleArn"))))
    ∧ ¬ (evalStack ⟨none, none, none, none, none, some "arn:aws:iam::1:role/a"⟩).2.isSome := by
  refine ⟨eval_fails_iff_missing_sso _, ?_⟩
  have h := (eval_fails_iff_missing_sso ⟨none, none, none, none, none,
    some "arn:aws:iam::1:role/a"⟩).1
  simp at h
  simp [h]

/-- Claim C2: whenever `ssoRoleArn` is configured, the declared cluster
has exactly one access entry, keyed "portaladmin", whose principal is
the configured ARN, whose single policy is the cluster-admin
cluster-access policy, at cluster scope with no namespaces. -/
theorem access_entries_exact (config : Config) (arn : String)
    (h : config.ssoRoleArn = some arn) :
    (declaredCluster config).map ClusterArgs.access_entries =
      some [("portaladmin",
        { principal_arn := arn
          access_policies := [("fullAccess",
            { policy_arn := "arn:aws:eks::aws:cluster-access-policy/AmazonEKSClusterAdminPolicy"
              access_scope := { type := "cluster", namespaces := [] } })]
          type := AccessEntryType.STANDARD })] := by
  simp [declaredCluster, evalStack, sso_role_arn, h, List.findSome?]

/-- Witness for C2 at a concrete configuration. -/
theorem access_entries_exact_witness :
    (declaredCluster ⟨none, none, none, none, none,
        some "arn:aws:iam::1:role/a"⟩).map ClusterArgs.access_entries =
      some [("portaladmin",
        { principal_arn := "arn:aws:iam::1:role/a"
          access_policies := [("fullAccess",
            { policy_arn := "arn:aws:eks::aws:cluster-access-policy/AmazonEKSClusterAdminPolicy"
              access_scope := { type := "cluster", namespaces := [] } })]
          type := AccessEntryType.STANDARD })] :=
  access_entries_exact ⟨none, none, none, none, none,
    some "arn:aws:iam::1:role/a"⟩ "arn:aws:iam::1:role/a" rfl

/-- Claim C3: with `ssoRoleArn` set and no other key set, the resolved
configuration values are min=3, max=6, desired=3, instance type
"t3.nano", CIDR "10.40.0.0/16". -/
theorem defaults_resolved (config : Config) (arn : String)
    (hsso : config.ssoRoleArn = some arn)
    (hmin : config.minClusterSize = none)
    (hmax : config.maxClusterSize = none)
    (hdes : config.desiredClusterSize = none)
    (hins : config.eksNodeInstanceType = none)
    (hcidr : config.vpcNetworkCidr = none) :
    min_cluster_size config = 3
    ∧ max_cluster_size config = 6
    ∧ desired_cluster_size config = 3
    ∧ eks_node_instance_type config = "t3.nano"
    ∧ vpc_network_cidr config = "10.40.0.0/16" := by
  simp [min_cluster_size, max_cluster_size, desired_cluster_size,
    eks_node_instance_type, vpc_network_cidr, hmin, hmax, hdes, hins, hcidr]

/-- Witness for C3 at a concrete configuration. -/
theorem defaults_resolved_witness :
    min_cluster_size ⟨none, none, none, none, none, some "arn:aws:iam::1:role/a"⟩ = 3
    ∧ max_cluster_size ⟨none, none, none, none, none, some "arn:aws:iam::1:role/a"⟩ = 6
    ∧ desired_cluster_size ⟨none, none, none, none, none, some "arn:aws:iam::1:role/a"⟩ = 3
    ∧ eks_node_instance_type ⟨none, none, none, none, none, some "arn:aws:iam::1:role/a"⟩ = "t3.nano"
    ∧ vpc_network_cidr ⟨none, none, none, none, none, some "arn:aws:iam::1:role/a"⟩ = "10.40.0.0/16" :=
  defaults_resolved ⟨none, none, none, none, none, some "arn:aws:iam::1:role/a"⟩
    "arn:aws:iam::1:role/a" rfl rfl rfl rfl rfl rfl

/-- Claim C4: for every configuration, the resolved values flow
unchanged into the constructors: min to the cluster's min size, max to
its max size, desired to its desired capacity, the instance type to its
instance type, and the CIDR to the VPC's CIDR block. -/
theorem resolved_values_passthrough (config : Config) (arn : String)
    (h : config.ssoRoleArn = some arn) :
    (declaredCluster config).map ClusterArgs.min_size = some (min_cluster_size config)
    ∧ (declaredCluster config).map ClusterArgs.max_size = some (max_cluster_size config)
    ∧ (declaredCluster config).map ClusterArgs.desired_capacity
        = some (desired_cluster_size config)
    ∧ (declaredCluster config).map ClusterArgs.instance_type
        = some (eks_node_instance_type config)
    ∧ (declaredVpc config).map VpcArgs.cidr_block = some (vpc_network_cidr config) := by
  simp [declaredCluster, declaredVpc, evalStack, sso_role_arn, h, List.findSome?]

/-- Witness for C4 at a concrete configuration with overrides. -/
theorem resolved_values_passthrough_witness :
    (declaredCluster ⟨some 1, some 2, some 4, some "m5.large", some "10.0.0.0/8",
        some "arn:aws:iam::1:role/a"⟩).map ClusterArgs.min_size
      = some (min_cluster_size ⟨some 1, some 2, some 4, some "m5.large", some "10.0.0.0/8",
        some "arn:aws:iam::1:role/a"⟩)
    ∧ (declaredCluster ⟨some 1, some 2, some 4, some "m5.large", some "10.0.0.0/8",
        some "arn:aws:iam::1:role/a"⟩).map ClusterArgs.max_size
      = some (max_cluster_size ⟨some 1, some 2, some 4, some "m5.large", some "10.0.0.0/8",
        some "arn:aws:iam::1:role/a"⟩)
    ∧ (declaredCluster ⟨some 1, some 2, some 4, some "m5.large", some "10.0.0.0/8",
        some "arn:aws:iam::1:role/a"⟩).map ClusterArgs.desired_capacity
      = some (desired_cluster_size ⟨some 1, some 2, some 4, some "m5.large", some "10.0.0.0/8",
        some "arn:aws:iam::1:role/a"⟩)
    ∧ (declaredCluster ⟨some 1, some 2, some 4, some "m5.large", some "10.0.0.0/8",
        some "arn:aws:iam::1:role/a"⟩).map ClusterArgs.instance_type
      = some (eks_node_instance_type ⟨some 1, some 2, some 4, some "m5.large", some "10.0.0.0/8",
        some "arn:aws:iam::1:role/a"⟩)
    ∧ (declaredVpc ⟨some 1, some 2, some 4, some "m5.large", some "10.0.0.0/8",
        some "arn:aws:iam::1:role/a"⟩).map VpcArgs.cidr_block
      = some (vpc_network_cidr ⟨some 1, some 2, some 4, some "m5.large", some "10.0.0.0/8",
        some "arn:aws:iam::1:role/a"⟩) :=
  resolved_values_passthrough ⟨some 1, some 2, some 4, some "m5.large", some "10.0.0.0/8",
    some "arn:aws:iam::1:role/a"⟩ "arn:aws:iam::1:role/a" rfl

/-- Claim C5: with inverted bounds min=5, max=3 (and `ssoRoleArn` set),
the manifest itself performs no min/max validation: evaluation succeeds
and both values reach the cluster constructor unchanged. -/
theorem no_min_max_validation (config : Config) (arn : String)
    (hsso : config.ssoRoleArn = some arn)
    (hmin : config.minClusterSize = some 5)
    (hmax : config.maxClusterSize = some 3) :
    (evalStack config).2 = none
    ∧ (declaredCluster config).map ClusterArgs.min_size = some 5
    ∧ (declaredCluster config).map ClusterArgs.max_size = some 3 := by
  simp [declaredCluster, evalStack, sso_role_arn, hsso, List.findSome?,
    min_cluster_size, max_cluster_size, hmin, hmax]

/-- Witness for C5 at a concrete configuration with min=5, max=3. -/
theorem no_min_max_validation_witness :
    (evalStack ⟨some 5, some 3, none, none, none, some "arn:aws:iam::1:role/a"⟩).2 = none
    ∧ (declaredCluster ⟨some 5, some 3, none, none, none,
        some "arn:aws:iam::1:role/a"⟩).map ClusterArgs.min_size = some 5
    ∧ (declaredCluster ⟨some 5, some 3, none, none, none,
        some "arn:aws:iam::1:role/a"⟩).map ClusterArgs.max_size = some 3 :=
  no_min_max_validation ⟨some 5, some 3, none, none, none,
    some "arn:aws:iam::1:role/a"⟩ "arn:aws:iam::1:role/a" rfl rfl rfl

/-- Claim C6: every successful evaluation exports exactly two outputs,
"kubeconfig" bound to the declared cluster's kubeconfig and "vpcId"
bound to the declared VPC's identifier, and nothing else. -/
theorem exports_exact (config : Config)
    (h : (evalStack config).2 = none) :
    stackExports config =
        [("kubeconfig", Val.kubeconfig "eks-cluster"),
         ("vpcId", Val.vpcId "eks-vpc")]
    ∧ (declaredCluster config).map ClusterArgs.name = some "eks-cluster"
    ∧ (declaredVpc config).map VpcArgs.name = some "eks-vpc" := by
  rcases hc : config.ssoRoleArn with _ | arn
  · exact absurd h (by simp [evalStack, sso_role_arn, hc])
  · simp [stackExports, declaredCluster, declaredVpc, evalStack, sso_role_arn, hc, List.findSome?]

/-- Witness for C6 at a concrete configuration. -/
theorem exports_exact_witness :
    stackExports ⟨none, none, none, none, none, some "arn:aws:iam::1:role/a"⟩ =
        [("kubeconfig", Val.kubeconfig "eks-cluster"),
         ("vpcId", Val.vpcId "eks-vpc")]
    ∧ (declaredCluster ⟨none, none, none, none, none,
        some "arn:aws:iam::1:role/a"⟩).map ClusterArgs.name = some "eks-cluster"
    ∧ (declaredVpc ⟨none, none, none, none, none,
        some "arn:aws:iam::1:role/a"⟩).map VpcArgs.name = some "eks-vpc" :=
  exports_exact ⟨none, none, none, none, none, some "arn:aws:iam::1:role/a"⟩ rfl

/-- Helper: with `ssoRoleArn` configured, the declared VPC computed
explicitly. -/
theorem declaredVpc_eq (config : Config) (arn : String)
    (h : config.ssoRoleArn = some arn) :
    declaredVpc config = some
      { name := "eks-vpc"
        enable_dns_hostnames := true
        cidr_block := vpc_network_cidr config } := by
  simp [declaredVpc, evalStack, sso_role_arn, h, List.findSome?]

/-- Helper: with `ssoRoleArn` configured, the declared cluster computed
explicitly. -/
theorem declaredCluster_eq (config : Config) (arn : String)
    (h : config.ssoRoleArn = some arn) :
    declaredCluster config = some
      { name := "eks-cluster"
        vpc_id := Val.vpcId "eks-vpc"
        authentication_mode := AuthenticationMode.API
        public_subnet_ids := Val.publicSubnetIds "eks-vpc"
        private_subnet_ids := Val.privateSubnetIds "eks-vpc"
        instance_type := eks_node_instance_type config
        desired_capacity := desired_cluster_size config
        min_size := min_cluster_size config
        max_size := max_cluster_size config
        node_associate_public_ip_address := false
        endpoint_private_access := false
        endpoint_public_access := true
        access_entries := [("portaladmin",
          { principal_arn := arn
            access_policies := [("fullAccess",
              { policy_arn := "arn:aws:eks::aws:cluster-access-policy/AmazonEKSClusterAdminPolicy"
                access_scope := { type := "cluster", namespaces := [] } })]
            type := AccessEntryType.STANDARD })] } := by
  simp [declaredCluster, evalStack, sso_role_arn, h, List.findSome?]

/-- Helper: with `ssoRoleArn` configured, the declared Kubernetes
provider computed explicitly. -/
theorem declaredProvider_eq (config : Config) (arn : String)
    (h : config.ssoRoleArn = some arn) :
    declaredProvider config = some
      { name := "cluster"
        kubeconfig := Val.kubeconfig "eks-cluster" } := by
  simp [declaredProvider, evalStack, sso_role_arn, h, List.findSome?]

/-- Claim C7: the VPC-before-cluster-before-provider order is pure
argument threading: the declared cluster receives the declared VPC's
vpc id and public and private subnet id outputs, the declared provider
receives the declared cluster's kubeconfig, and that kubeconfig value
is the one exported under "kubeconfig". -/
theorem dependency_threading (config : Config) (arn : String)
    (h : config.ssoRoleArn = some arn) :
    ∃ v c p, declaredVpc config = some v
      ∧ declaredCluster config = some c
      ∧ declaredProvider config = some p
      ∧ c.vpc_id = Val.vpcId v.name
      ∧ c.public_subnet_ids = Val.publicSubnetIds v.name
      ∧ c.private_subnet_ids = Val.privateSubnetIds v.name
      ∧ p.kubeconfig = Val.kubeconfig c.name
      ∧ ("kubeconfig", p.kubeconfig) ∈ stackExports config := by
  refine ⟨_, _, _, declaredVpc_eq config arn h, declaredCluster_eq config arn h,
    declaredProvider_eq config arn h, rfl, rfl, rfl, rfl, ?_⟩
  simp [stackExports, evalStack, sso_role_arn, h]

/-- Witness for C7 at a concrete configuration. -/
theorem dependency_threading_witness :
    ∃ v c p,
      declaredVpc ⟨none, none, none, none, none, some "arn:aws:iam::1:role/a"⟩ = some v
      ∧ declaredCluster ⟨none, none, none, none, none, some "arn:aws:iam::1:role/a"⟩ = some c
      ∧ declaredProvider ⟨none, none, none, none, none, some "arn:aws:iam::1:role/a"⟩ = some p
      ∧ c.vpc_id = Val.vpcId v.name
      ∧ c.public_subnet_ids = Val.publicSubnetIds v.name
      ∧ c.private_subnet_ids = Val.privateSubnetIds v.name
      ∧ p.kubeconfig = Val.kubeconfig c.name
      ∧ ("kubeconfig", p.kubeconfig)
          ∈ stackExports ⟨none, none, none, none, none, some "arn:aws:iam::1:role/a"⟩ :=
  dependency_threading ⟨none, none, none, none, none, some "arn:aws:iam::1:role/a"⟩
    "arn:aws:iam::1:role/a" rfl

/-- Claim C8: for every configuration, the declared cluster never gives
worker nodes a public IP, places nodes only in the VPC's private
subnets, and exposes a public (not private) API endpoint; no
configuration key influences these settings. -/
theorem fixed_network_posture (config : Config) (arn : String)
    (h : config.ssoRoleArn = some arn) :
    ∃ c, declaredCluster config = some c
      ∧ c.node_associate_public_ip_address = false
      ∧ c.private_subnet_ids = Val.privateSubnetIds "eks-vpc"
      ∧ c.endpoint_public_access = true
      ∧ c.endpoint_private_access = false := by
  exact ⟨_, declaredCluster_eq config arn h, rfl, rfl, rfl, rfl⟩

/-- Witness for C8 at a concrete configuration. -/
theorem fixed_network_posture_witness :
    ∃ c, declaredCluster ⟨none, none, none, none, none,
        some "arn:aws:iam::1:role/a"⟩ = some c
      ∧ c.node_associate_public_ip_address = false
      ∧ c.private_subnet_ids = Val.privateSubnetIds "eks-vpc"
      ∧ c.endpoint_public_access = true
      ∧ c.endpoint_private_access = false :=
  fixed_network_posture ⟨none, none, none, none, none,
    some "arn:aws:iam::1:role/a"⟩ "arn:aws:iam::1:role/a" rfl

/-- Claim C9: for every configuration, the cluster authentication mode
is API, the single access entry has type STANDARD, and the VPC enables
DNS hostnames; none of these depends on any configuration key. -/
theorem fixed_modes (config : Config) (arn : String)
    (h : config.ssoRoleArn = some arn) :
    ∃ c v, declaredCluster config = some c
      ∧ declaredVpc config = some v
      ∧ c.authentication_mode = AuthenticationMode.API
      ∧ c.access_entries.map (fun e => e.2.type) = [AccessEntryType.STANDARD]
      ∧ v.enable_dns_hostnames = true := by
  exact ⟨_, _, declaredCluster_eq config arn h, declaredVpc_eq config arn h,
    rfl, rfl, rfl⟩

/-- Witness for C9 at a concrete configuration. -/
theorem fixed_modes_witness :
    ∃ c v, declaredCluster ⟨none, none, none, none, none,
        some "arn:aws:iam::1:role/a"⟩ = some c
      ∧ declaredVpc ⟨none, none, none, none, none,
        some "arn:aws:iam::1:role/a"⟩ = some v
      ∧ c.authentication_mode = AuthenticationMode.API
      ∧ c.access_entries.map (fun e => e.2.type) = [AccessEntryType.STANDARD]
      ∧ v.enable_dns_hostnames = true :=
  fixed_modes ⟨none, none, none, none, none,
    some "arn:aws:iam::1:role/a"⟩ "arn:aws:iam::1:role/a" rfl

/-- Claim C10: the manifest is deterministic and depends on nothing but
the six configuration inputs: two configurations agreeing on all six
keys produce identical evaluations (declarations, exports, and error
alike). -/
theorem eval_deterministic (c₁ c₂ : Config)
    (h₁ : c₁.minClusterSize = c₂.minClusterSize)
    (h₂ : c₁.maxClusterSize = c₂.maxClusterSize)
    (h₃ : c₁.desiredClusterSize = c₂.desiredClusterSize)
    (h₄ : c₁.eksNodeInstanceType = c₂.eksNodeInstanceType)
    (h₅ : c₁.vpcNetworkCidr = c₂.vpcNetworkCidr)
    (h₆ : c₁.ssoRoleArn = c₂.ssoRoleArn) :
    evalStack c₁ = evalStack c₂ := by
  cases c₁
  cases c₂
  simp only [Config.mk.injEq] at *
  subst h₁ h₂ h₃ h₄ h₅ h₆
  rfl

/-- Witness for C10 at two structurally distinct but key-for-key equal
configurations. -/
theorem eval_deterministic_witness :
    evalStack ⟨some 3, none, none, none, none, some "arn:aws:iam::1:role/a"⟩
      = evalStack ⟨some (2 + 1), none, none, none, none, some "arn:aws:iam::1:role/a"⟩ :=
  eval_deterministic _ _ (by decide) rfl rfl rfl rfl rfl
